import Mathlib

/-! ## Definitions -/

/-!
Verification of the Flint diary/note reconciliation core against its
natural-language specification.

Python strings are modelled as lists of characters (a Python str is a
sequence of code points).  Python str.strip() is modelled for the ASCII
whitespace characters (space, tab, newline, carriage return, vertical tab,
form feed); the Unicode whitespace extension of Python is outside the model.
-/

abbrev PyStr := List Char

/-- Characters removed by Python str.strip with no arguments (ASCII part). -/
def pySpace (c : Char) : Bool :=
  c = ' ' || c = '\t' || c = '\n' || c = '\r' || c = '\x0b' || c = '\x0c'

/-- Model of Python str.strip(): drop whitespace from both ends. -/
def pyStrip (s : PyStr) : PyStr :=
  ((s.dropWhile pySpace).reverse.dropWhile pySpace).reverse

/-- Model of Python str.split with a newline separator. -/
def pyLines (s : PyStr) : List PyStr := s.splitOn '\n'

/-- Model of Python newline-join of a list of strings. -/
def pyUnlines (ls : List PyStr) : PyStr := List.intercalate ['\n'] ls

/-- Model of the Python substring test (the in operator on str). -/
def pyIn (pat : PyStr) : PyStr → Bool
  | [] => pat.isEmpty
  | l@(_ :: t) => pat.isPrefixOf l || pyIn pat t

/-- Truthiness of an optional Python string: None and the empty string are falsy. -/
def pyFalsy : Option PyStr → Bool
  | none => true
  | some s => s.isEmpty

/-- The fixed target heading of the diary merge (src/utils/obsidian.py). -/
def diaryHeading : PyStr := "## Diary".data

/-- Test for a level-2 heading line: line.startswith of the marker. -/
def isH2 (l : PyStr) : Bool := ("## ".data).isPrefixOf l

/-- Loop state of replace_diary_section: accumulated lines, the
in_diary_section flag and the diary_section_found flag. -/
structure MergeState where
  res : List PyStr
  inDiary : Bool
  found : Bool
deriving Repr, DecidableEq

/-- One iteration of the line loop of replace_diary_section
(src/utils/obsidian.py lines 30 to 44). -/
def mergeStep (T : List PyStr) (s : MergeState) (line : PyStr) : MergeState :=
  if pyStrip line = diaryHeading then
    ⟨s.res ++ T, true, true⟩
  else if s.inDiary && isH2 line then
    ⟨s.res ++ [[], line], false, s.found⟩
  else if !s.inDiary then
    ⟨s.res ++ [line], s.inDiary, s.found⟩
  else
    s

/-- Embedding of replace_diary_section (src/utils/obsidian.py lines 11 to 50). -/
def replace_diary_section (existing newSection : PyStr) : PyStr :=
  if pyStrip existing = [] then pyStrip newSection
  else
    let T := pyLines (pyStrip newSection)
    let st := (pyLines existing).foldl (mergeStep T) ⟨[], false, false⟩
    let res := if st.found then st.res else st.res ++ [[], pyStrip newSection]
    pyUnlines res

/-- Recursive characterisation of the line loop: output lines, final
in_diary_section flag and the diary_section_found flag. -/
def runMerge (T : List PyStr) (inD : Bool) : List PyStr → List PyStr × Bool × Bool
  | [] => ([], inD, false)
  | l :: ls =>
    if pyStrip l = diaryHeading then
      let r := runMerge T true ls
      (T ++ r.1, r.2.1, true)
    else if inD && isH2 l then
      let r := runMerge T false ls
      ([] :: l :: r.1, r.2.1, r.2.2)
    else if !inD then
      let r := runMerge T inD ls
      (l :: r.1, r.2.1, r.2.2)
    else
      runMerge T inD ls

/-- Number of lines whose stripped value is the diary heading. -/
def countHeading (ls : List PyStr) : Nat :=
  ls.countP (fun l => decide (pyStrip l = diaryHeading))

/-!
Embedding of the MCP configuration layer (src/plugins/mcp.py).

A YAML mapping entry is modelled as a record of optional fields, one per key
the source reads; an absent key is none.  Dictionary values are association
lists.  Environment lookup (os.environ.get with default empty string) is a
function argument.
-/

/-- Runtime config dictionary of an MCPConfiguration: the keys read or
written by _create_mcp_configuration and get_server_params. -/
structure ConfigMap where
  cmd : Option String := none
  command : Option String := none
  args : Option (List String) := none
  envs : Option (List (String × String)) := none
  env_keys : Option (List String) := none
  timeout : Option Int := none
  bundled : Option Bool := none
deriving Repr, DecidableEq

/-- Truthiness of the Python dict underlying a ConfigMap: empty means falsy. -/
def ConfigMap.isEmptyMap (c : ConfigMap) : Bool :=
  c.cmd.isNone && c.command.isNone && c.args.isNone && c.envs.isNone &&
    c.env_keys.isNone && c.timeout.isNone && c.bundled.isNone

/-- One structured YAML entry: the keys read by _create_mcp_configuration. -/
structure EntryDict where
  type : Option String := none
  command : Option String := none
  cmd : Option String := none
  args : Option (List String) := none
  envs : Option (List (String × String)) := none
  env_keys : Option (List String) := none
  enabled : Option Bool := none
  config : Option ConfigMap := none
  metadata : Option (List (String × String)) := none
  description : Option String := none
  name : Option String := none
  timeout : Option Int := none
  bundled : Option Bool := none
deriving Repr, DecidableEq

/-- One raw configuration entry: a bare string or a structured mapping. -/
inductive EntryVal where
  | str (s : String)
  | dict (c : EntryDict)
deriving Repr, DecidableEq

/-- Embedding of the MCPConfiguration dataclass (src/plugins/mcp.py lines
17 to 31). -/
structure MCPConfiguration where
  name : String
  type : String
  enabled : Bool
  config : ConfigMap
  metadata : List (String × String)
deriving Repr, DecidableEq

/-- Validation of MCPConfiguration.__post_init__: empty name or type raises
ValueError. -/
def mkMCPConfiguration (name type : String) (enabled : Bool)
    (config : ConfigMap) (metadata : List (String × String)) :
    Except String MCPConfiguration :=
  if name = "" then .error "MCP name cannot be empty"
  else if type = "" then .error "MCP type cannot be empty"
  else .ok ⟨name, type, enabled, config, metadata⟩

/-- Embedding of the launch descriptor StdioServerParameters. -/
structure StdioServerParameters where
  command : String
  args : List String
  env : List (String × String)
deriving Repr, DecidableEq

/-- Embedding of MCPConfiguration.get_server_params (src/plugins/mcp.py
lines 33 to 49); host models os.environ.get with default empty string. -/
def get_server_params (cfg : MCPConfiguration) (host : String → String) :
    Except String StdioServerParameters :=
  let envs0 := cfg.config.envs.getD []
  let envs := if envs0.isEmpty then
      (cfg.config.env_keys.getD []).map (fun k => (k, host k))
    else envs0
  let command := match cfg.config.cmd with
    | some c => if c = "" then cfg.config.command.getD "" else c
    | none => cfg.config.command.getD ""
  if command = "" then
    .error ("No command specified for MCP \x27" ++ cfg.name ++ "\x27")
  else
    .ok ⟨command, cfg.config.args.getD [], envs⟩

/-- Embedding of MCPConfigReader._create_mcp_configuration
(src/plugins/mcp.py lines 389 to 445). -/
def create_mcp_configuration (name : String) (config : EntryVal) :
    Except String MCPConfiguration :=
  match config with
  | .str s => mkMCPConfiguration name s true {} []
  | .dict c =>
    let mcp_type0 := match c.type with
      | some t => t
      | none => c.command.getD ""
    let enabled := c.enabled.getD true
    let mcp_config0 := c.config.getD {}
    let metadata0 := c.metadata.getD []
    let (mcp_config1, metadata1) :=
      if c.cmd.isSome then
        (({ cmd := c.cmd, args := some (c.args.getD []),
            envs := some (c.envs.getD []), env_keys := some (c.env_keys.getD []),
            timeout := some (c.timeout.getD 300), bundled := c.bundled } : ConfigMap),
          [("description", c.description.getD ""), ("name", c.name.getD name)])
      else if c.args.isSome && mcp_config0.isEmptyMap then
        (({ args := c.args } : ConfigMap), metadata0)
      else
        (mcp_config0, metadata0)
    let (mcp_type, mcp_config) :=
      if mcp_type0 = "" && c.command.isSome then
        ("command",
          ({ command := c.command, args := c.args } : ConfigMap))
      else
        (mcp_type0, mcp_config1)
    mkMCPConfiguration name mcp_type enabled mcp_config metadata1

/-!
Embedding of MCPClient.get_response and its response processing
(src/plugins/mcp.py lines 96 to 296).

External effects are modelled by an environment: the outcome of the stdio
launch plus protocol handshake (the initialize context manager), of
list_tools, of chat.send_message, of each call_tool and of each follow-up
generate_content call.  Object renderings used only inside f-string log
messages (str of the response, of the tools list, of parsed args and the
model_dump_json of a function call) are oracles in the environment.
Logging is modelled as a list of level and message pairs.  A hasattr test on
a typed optional attribute is modelled as an isSome test.  The JSON-string
fallback of _parse_gemini_function_args is unreachable for mapping-typed
args and is not modelled; parsing is the item-by-item copy of the mapping.
-/

inductive LogLevel where
  | debug
  | info
  | warning
  | error
deriving Repr, DecidableEq

abbrev LogEntry := LogLevel × String

structure FunctionCallM where
  name : String
  args : List (String × String)
deriving Repr, DecidableEq

structure GeminiPart where
  text : Option String := none
  function_call : Option FunctionCallM := none
deriving Repr, DecidableEq

structure GeminiContent where
  parts : List GeminiPart
deriving Repr, DecidableEq

structure GeminiCandidate where
  content : Option GeminiContent
deriving Repr, DecidableEq

structure GeminiResponse where
  candidates : List GeminiCandidate
deriving Repr, DecidableEq

/-- Content of one entry of the messages history: a plain string, the JSON
dump of a function call, or the result dictionary of a tool call. -/
inductive MsgContent where
  | text (s : String)
  | json (s : String)
  | result (s : String)
deriving Repr, DecidableEq

structure PyMsg where
  role : String
  content : MsgContent
deriving Repr, DecidableEq

structure GeminiEnv where
  initOutcome : Except String Unit
  listToolsOutcome : Except String (List String)
  sendOutcome : Except String GeminiResponse
  toolsRepr : String
  respRepr : String
  argsRepr : List (String × String) → String
  callTool : String → List (String × String) → Except String String
  followUp : String → Except String GeminiResponse
  fcJson : FunctionCallM → String

/-- Embedding of _parse_gemini_function_args for mapping-typed args: the
item-by-item copy into a fresh dict. -/
def parse_gemini_function_args (fc : FunctionCallM) : List (String × String) :=
  fc.args

/-- Embedding of MCPClient._handle_tool_result (src/plugins/mcp.py lines
224 to 296). -/
def handle_tool_result (env : GeminiEnv) (toolName : String)
    (fc : FunctionCallM) (result : String) (finalText : List String)
    (messages : List PyMsg) : (List String × List PyMsg) × List LogEntry :=
  let messages := messages ++ [⟨"assistant", .json (env.fcJson fc)⟩]
  let messages := messages ++ [⟨"user", .result result⟩]
  match env.followUp toolName with
  | .error e =>
    ((finalText ++ ["I received the tool results but encountered an error: " ++ e],
      messages),
     [(LogLevel.error, "Error in follow-up response: " ++ e)])
  | .ok fur =>
    match fur.candidates with
    | [] =>
      ((finalText ++
          ["I processed your request but couldn\x27t generate a follow-up response."],
        messages), [])
    | c :: _ =>
      match c.content with
      | none => ((finalText, messages), [])
      | some content =>
        let followUpText := String.join (content.parts.filterMap (fun p => p.text))
        if followUpText ≠ "" then
          ((finalText ++ [followUpText],
            messages ++ [⟨"assistant", .text followUpText⟩]), [])
        else
          ((finalText ++
              ["I received the tool results but couldn\x27t generate a follow-up response."],
            messages), [])

/-- One iteration of the part loop of _process_gemini_response
(src/plugins/mcp.py lines 181 to 221). -/
def process_part (env : GeminiEnv) (acc : (List String × List PyMsg) × List LogEntry)
    (p : GeminiPart) : (List String × List PyMsg) × List LogEntry :=
  let finalText := acc.1.1
  let messages := acc.1.2
  let logs := acc.2
  let finalText := match p.text with
    | some t => if t ≠ "" then finalText ++ [t] else finalText
    | none => finalText
  match p.function_call with
  | none => ((finalText, messages), logs)
  | some fc =>
    let toolName := fc.name
    let toolArgs := parse_gemini_function_args fc
    let finalText := finalText ++
      ["I need to call the " ++ toolName ++ " function to help with your request."]
    let logs := logs ++
      [(LogLevel.debug,
        "Calling tool " ++ toolName ++ " with args " ++ env.argsRepr toolArgs ++ "...")]
    match env.callTool toolName toolArgs with
    | .error e =>
      let msg := "Error executing tool " ++ toolName ++ ": " ++ e
      ((finalText ++ [msg], messages), logs ++ [(LogLevel.error, msg)])
    | .ok result =>
      let logs := logs ++
        [(LogLevel.debug, "tool " ++ toolName ++ " result: " ++ result)]
      let r := handle_tool_result env toolName fc result finalText messages
      (r.1, logs ++ r.2)

/-- Embedding of MCPClient._process_gemini_response (src/plugins/mcp.py
lines 167 to 222). -/
def process_gemini_response (env : GeminiEnv) (resp : GeminiResponse)
    (finalText : List String) (messages : List PyMsg) :
    (List String × List PyMsg) × List LogEntry :=
  match resp.candidates with
  | [] =>
    ((finalText ++ ["I couldn\x27t generate a proper response."], messages),
     [(LogLevel.warning, "No candidates in Gemini response")])
  | c :: _ =>
    match c.content with
    | none =>
      ((finalText ++ ["I received an incomplete response."], messages),
       [(LogLevel.warning, "No content or parts in Gemini response")])
    | some content =>
      content.parts.foldl (process_part env) ((finalText, messages), [])

/-- Embedding of MCPClient.get_response (src/plugins/mcp.py lines 96 to
149).  The result component is the returned pair of joined text and message
history, or the propagated exception; the second component is the log. -/
def get_response (env : GeminiEnv) (name prompt : String) :
    Except String (String × List PyMsg) × List LogEntry :=
  match env.initOutcome with
  | .error e => (.error e, [])
  | .ok _ =>
    match env.listToolsOutcome with
    | .error e => (.error e, [])
    | .ok _ =>
      let logs0 : List LogEntry :=
        [(LogLevel.info, "MCP " ++ name ++ " available tools: " ++ env.toolsRepr),
         (LogLevel.info, "MCP " ++ name ++ " starting a new chat"),
         (LogLevel.debug, "MCP " ++ name ++ " sending \x27" ++ prompt ++ "\x27")]
      let messages0 : List PyMsg := [⟨"user", .text prompt⟩]
      match env.sendOutcome with
      | .error e =>
        (.ok ("I encountered an error while processing your request: " ++ e,
          messages0),
         logs0 ++ [(LogLevel.error, "Error in Gemini processing: " ++ e)])
      | .ok resp =>
        let logs1 := logs0 ++ [(LogLevel.info, "Response: " ++ env.respRepr)]
        let r := process_gemini_response env resp [] messages0
        (.ok (String.intercalate "\n" r.1.1, r.1.2), logs1 ++ r.2)

/-- Environment in which every external step succeeds and the model returns
a response with no candidates. -/
def c3EnvNoCandidates : GeminiEnv where
  initOutcome := .ok ()
  listToolsOutcome := .ok []
  sendOutcome := .ok ⟨[]⟩
  toolsRepr := "[]"
  respRepr := ""
  argsRepr := fun _ => ""
  callTool := fun _ _ => .error ""
  followUp := fun _ => .error ""
  fcJson := fun _ => ""

/-- Environment in which the subprocess launch or handshake fails. -/
def c3EnvLaunchFail : GeminiEnv :=
  { c3EnvNoCandidates with initOutcome := .error "failed to spawn" }

/-!
Embedding of send_agenda (src/plugins/schedule.py lines 59 to 141).

External effects are an environment: presence of job, job data and chat id,
the outcome of the configuration reload, the registry lookups, the host
environment for launch-descriptor construction, the outcome of each
get_response call (a text and message-history pair, per the client model
above), and the final generate_content outcome (its text attribute).  The
str() rendering that the format call applies to a fetched value is the
pairRepr oracle.  The result is the pair of prompt and sent text, none for
the early returns, or the propagated exception.  The keyword mismatch in
the MCPClient construction call is a Python-level binding detail outside
this value-level model.
-/

/-- Truthiness of the optional chat id: None and 0 are falsy. -/
def pyIntFalsy : Option Int → Bool
  | none => true
  | some n => n == 0

/-- The PROMPT_TEMPLATE of the schedule plugin with both fields filled in
(str.format on the two placeholders). -/
def PROMPT_TEMPLATE_fmt (weather_data calendar_data : String) : String :=
  "\nYou are a helpful digital assistant.\n\nYour primary role is to provide a daily briefing.\n\nOrganize the information clearly. Use emojis if they genuinely enhance the\nmessage and fit your adopted persona.\n\nIf there\x27s no information for a section, acknowledge its absence in\ncharacter.\n\nAvoid using markdown formatting. Use extra whitelines and line breaks to enhance readability.\n\nIts important to mention unusual weather conditions. Condense weather data into no more than three sentences.\n\nCondense calendar data into a list, no more than three sentences.\n\nGood morning! Here is your morning briefing.\n\nWeather Update:\n    "
    ++ weather_data ++
    "\n\nUpcoming Calendar Events (next 24 hours):\n    "
    ++ calendar_data ++
    "\n\nPlease synthesize this into a single, coherent message, adhering to your\npersona. If a section is empty or explicitly states no information,\nacknowledge it cheerfully or omit it gracefully.\n"

structure ScheduleEnv where
  jobPresent : Bool
  jobDataPresent : Bool
  chatId : Option Int
  reloadOutcome : Except String Unit
  weatherName : String
  weatherConfig : Option MCPConfiguration
  host : String → String
  weatherCall : Except String (String × List PyMsg)
  calendarName : Option String
  calendarConfig : Option MCPConfiguration
  calendarCall : Except String (String × List PyMsg)
  finalOutcome : Except String (Option String)
  pairRepr : String × List PyMsg → String

/-- Embedding of send_agenda: none models the silent early returns, the
pair is the built prompt and the text sent to the chat, and an error is an
exception reaching the caller. -/
def send_agenda (env : ScheduleEnv) : Except String (Option (String × String)) :=
  if !env.jobPresent then .ok none
  else if !env.jobDataPresent then .ok none
  else if pyIntFalsy env.chatId then .ok none
  else
    match env.reloadOutcome with
    | .error e => .error e
    | .ok _ =>
      let weatherStep : Except String (Option (String × List PyMsg)) :=
        match env.weatherConfig with
        | none => .ok none
        | some cfg =>
          match get_server_params cfg env.host with
          | .error e => .error e
          | .ok _ =>
            match env.weatherCall with
            | .error e => .error e
            | .ok pair => .ok (some pair)
      match weatherStep with
      | .error e => .error e
      | .ok weather_data =>
        let calendarStep : Except String (Option (String × List PyMsg)) :=
          match env.calendarName with
          | some n =>
            if n ≠ "" then
              match env.calendarConfig with
              | none => .ok none
              | some cfg =>
                match get_server_params cfg env.host with
                | .error e => .error e
                | .ok _ =>
                  match env.calendarCall with
                  | .error e => .error e
                  | .ok pair => .ok (some pair)
            else .ok none
          | none => .ok none
        match calendarStep with
        | .error e => .error e
        | .ok calendar_data =>
          let prompt := PROMPT_TEMPLATE_fmt
            (match weather_data with
              | some p => env.pairRepr p
              | none => "No weather data available")
            (match calendar_data with
              | some p => env.pairRepr p
              | none => "No calendar events scheduled for today")
          match env.finalOutcome with
          | .error e => .error e
          | .ok none => .error "Empty response from AI"
          | .ok (some t) =>
            if t = "" then .error "Empty response from AI"
            else .ok (some (prompt, t))

/-- Environment whose weather tool is configured but has no command. -/
def c7EnvNoCommand : ScheduleEnv where
  jobPresent := true
  jobDataPresent := true
  chatId := some 1
  reloadOutcome := .ok ()
  weatherName := "weather"
  weatherConfig := some ⟨"weather", "t", true, {}, []⟩
  host := fun _ => ""
  weatherCall := .ok ("sunny", [])
  calendarName := none
  calendarConfig := none
  calendarCall := .ok ("", [])
  finalOutcome := .ok (some "briefing")
  pairRepr := fun p => p.1

/-- Environment with neither tool available and a good final response. -/
def c7EnvDegraded : ScheduleEnv where
  jobPresent := true
  jobDataPresent := true
  chatId := some 1
  reloadOutcome := .ok ()
  weatherName := "weather"
  weatherConfig := none
  host := fun _ => ""
  weatherCall := .ok ("", [])
  calendarName := none
  calendarConfig := none
  calendarCall := .ok ("", [])
  finalOutcome := .ok (some "briefing")
  pairRepr := fun p => p.1

/-- Truthiness substitution of Python x or fallback for optional strings. -/
def pyOrStr (o : Option PyStr) (fb : PyStr) : PyStr :=
  match o with
  | some s => if s.isEmpty then fb else s
  | none => fb

/-- Modelled from the spec: DIARY_TEMPLATE is imported by update_diary.py
from plugins.diary but is absent from the source tree; spec section 4.4
step 4 and section 8 fix a two-part markdown template with a level-2 Diary
heading, an Events sub-section holding the calendar text and a Tasks
sub-section holding the tasks text.  This renders the template with both
format fields substituted. -/
def DIARY_TEMPLATE_render (calendar_data tasks_done : PyStr) : PyStr :=
  ("## Diary\n\n### Events\n").data ++ calendar_data ++
    ("\n\n### Tasks\n").data ++ tasks_done

/-- Embedding of create_diary_entry (src/update_diary.py lines 290 to 304):
the template is rendered with the fetched data or the literal fallback
strings of that file. -/
def create_diary_entry (calendar_data tasks_data : Option PyStr) : PyStr :=
  DIARY_TEMPLATE_render
    (pyOrStr calendar_data ("No calendar events recorded for this day".data))
    (pyOrStr tasks_data ("No tasks completed on this day".data))

/-!
Embedding of the Todoist export format and the local completed-task scan
(src/utils/todoist.py).

The regular expressions of parse_todoist_frontmatter all have the shape
caret key colon quote group quote dollar with MULTILINE, so a match is a
whole line that starts with the key, a colon-space and a double quote and
ends with a double quote, with at least one character between the quotes;
re.search returns the first such line.  Unicode-aware character classes
(backslash-w, backslash-s) and the NFKD normalisation of sanitize_filename
are modelled for ASCII text.  The date parser models
datetime.fromisoformat(...).date() for strings starting with a calendar
date, with day validity checked only against 1..31.
-/

/-- Match of one line against the anchored quoted-value pattern for key. -/
def matchQuotedKey (key : PyStr) (line : PyStr) : Option PyStr :=
  let pre := key ++ (": \"").data
  if pre.isPrefixOf line && decide (pre.length + 2 ≤ line.length) &&
      line.getLast? == some '"' then
    some ((line.drop pre.length).dropLast)
  else none

/-- First line of the content matching the quoted-value pattern for key. -/
def search_quoted (key : PyStr) (content : PyStr) : Option PyStr :=
  (pyLines content).findSome? (matchQuotedKey key)

/-- Embedding of parse_todoist_frontmatter (src/utils/todoist.py lines 573
to 597): title, todoist_id, project, section, completed_date.  The returned
completed_date is taken from a quoted completed line, matching the source
pattern. -/
def parse_todoist_frontmatter (content : PyStr) :
    Option PyStr × Option PyStr × Option PyStr × Option PyStr × Option PyStr :=
  let title := search_quoted ("title".data) content
  let tid := search_quoted ("todoist_id".data) content
  let project := search_quoted ("project".data) content
  let sect := search_quoted ("section".data) content
  let completed := search_quoted ("completed".data) content
  if title.isNone || tid.isNone then (none, none, none, none, none)
  else (title, tid, some (project.getD ("Other".data)), sect, completed)

/-- Embedding of is_task_completed (src/utils/todoist.py lines 617 to 626). -/
def is_task_completed (content : PyStr) : Bool :=
  pyIn ("completed: true".data) content

/-- ASCII word character of the regex backslash-w class. -/
def isWordChar (c : Char) : Bool := c.isAlphanum || c == '_'

/-- Embedding of clean_title_for_obsidian_link (src/utils/todoist.py lines
643 to 652). -/
def clean_title_for_obsidian_link (title : PyStr) : PyStr :=
  pyStrip (title.filter (fun c => isWordChar c || pySpace c || c == '-'))

def digitVal (c : Char) : Option Nat :=
  if c.isDigit then some (c.toNat - 48) else none

/-- Approximate model of datetime.fromisoformat followed by date(): parse a
leading zero-padded calendar date, requiring the remainder to be empty or a
time part introduced by T or a space. -/
def parseIsoDate (s : PyStr) : Option (Nat × Nat × Nat) :=
  match s with
  | y1 :: y2 :: y3 :: y4 :: '-' :: m1 :: m2 :: '-' :: d1 :: d2 :: rest =>
    match digitVal y1, digitVal y2, digitVal y3, digitVal y4,
        digitVal m1, digitVal m2, digitVal d1, digitVal d2 with
    | some a, some b, some c, some d, some e, some f, some g, some h =>
      let y := ((a * 10 + b) * 10 + c) * 10 + d
      let m := e * 10 + f
      let dd := g * 10 + h
      if (1 ≤ m && m ≤ 12 && 1 ≤ dd && dd ≤ 31) &&
          (rest.isEmpty || rest.head? == some 'T' || rest.head? == some ' ') then
        some (y, m, dd)
      else none
    | _, _, _, _, _, _, _, _ => none
  | _ => none

def natToPyStr (n : Nat) : PyStr := Nat.toDigits 10 n

def pad2 (n : Nat) : PyStr := if n < 10 then '0' :: natToPyStr n else natToPyStr n

def pad4 (n : Nat) : PyStr :=
  if n < 10 then '0' :: '0' :: '0' :: natToPyStr n
  else if n < 100 then '0' :: '0' :: natToPyStr n
  else if n < 1000 then '0' :: natToPyStr n
  else natToPyStr n

/-- Rendering str(date): the ISO form YYYY-MM-DD. -/
def pyDateRepr (d : Nat × Nat × Nat) : PyStr :=
  pad4 d.1 ++ ['-'] ++ pad2 d.2.1 ++ ['-'] ++ pad2 d.2.2

/-- Insertion into the completed_by_project dict, preserving insertion
order of keys as a Python dict does. -/
def upsertTask (m : List (PyStr × List PyStr)) (k : PyStr) (v : PyStr) :
    List (PyStr × List PyStr) :=
  if m.any (fun kv => kv.1 == k) then
    m.map (fun kv => if kv.1 == k then (kv.1, kv.2 ++ [v]) else kv)
  else m ++ [(k, [v])]

/-- Python string comparison: lexicographic by code point. -/
def pyLt : PyStr → PyStr → Bool
  | [], [] => false
  | [], _ :: _ => true
  | _ :: _, [] => false
  | a :: as, b :: bs =>
    if a < b then true else if b < a then false else pyLt as bs

def insertSortedBy (le : α → α → Bool) (x : α) : List α → List α
  | [] => [x]
  | y :: ys => if le x y then x :: y :: ys else y :: insertSortedBy le x ys

/-- Stable ascending sort, modelling Python sorted. -/
def sortBy (le : α → α → Bool) (l : List α) : List α :=
  l.foldr (insertSortedBy le) []

/-- Embedding of scan_todoist_completed_tasks_today (src/utils/todoist.py
lines 670 to 730).  The folder is modelled as the list of read outcomes of
its markdown files: none for an unreadable file, in order; an empty list
models a missing or empty folder. -/
def scan_todoist_completed_tasks_today (files : List (Option PyStr))
    (today : Nat × Nat × Nat) : PyStr :=
  if files.isEmpty then ("Todoist folder not found").data
  else
    let completed_by_project := files.foldl (fun acc file? =>
      match file? with
      | none => acc
      | some content =>
        if content.isEmpty then acc
        else
          let parsed := parse_todoist_frontmatter content
          let title := parsed.1
          let tid := parsed.2.1
          let project := parsed.2.2.1
          let sect := parsed.2.2.2.1
          let completed_date := parsed.2.2.2.2
          if pyFalsy title || pyFalsy tid || pyFalsy completed_date then acc
          else
            match parseIsoDate (completed_date.getD []) with
            | none => acc
            | some d =>
              if d = today then
                let clean_title := clean_title_for_obsidian_link (title.getD [])
                let entry := ("* [x] [[Todoist/").data ++ tid.getD [] ++
                  ("|").data ++ clean_title ++ ("]] ✅ ").data ++ pyDateRepr today
                let project_key := match sect with
                  | some s =>
                    if !s.isEmpty then
                      project.getD [] ++ (" - ").data ++ s
                    else project.getD []
                  | none => project.getD []
                upsertTask acc project_key entry
              else acc) []
    if completed_by_project.isEmpty then ("No tasks completed today").data
    else
      let sorted := sortBy (fun a b => pyLt a.1 b.1 || a.1 == b.1)
        completed_by_project
      let out := sorted.foldl (fun acc kv =>
        acc ++ [("**").data ++ kv.1 ++ (":**").data] ++ kv.2 ++ [[]]) []
      let out := if !out.isEmpty && out.getLast? == some [] then out.dropLast
        else out
      pyUnlines out

/-- Embedding of the ExportConfig dataclass (src/utils/todoist.py lines 271
to 283); output_dir and the unused date and time formats are omitted, and
the tag_prefix field is rendered here as tagBase. -/
structure ExportConfig where
  include_completed : Bool := false
  include_comments : Bool := true
  tagBase : PyStr := ("todoist").data
  priority_as_tags : Bool := true
  labels_as_tags : Bool := true

/-- Embedding of TodoistProject (src/utils/todoist.py), fields used by the
exporter. -/
structure TodoistProjectM where
  id : PyStr
  name : PyStr

/-- Embedding of TodoistSection (src/utils/todoist.py), fields used by the
exporter. -/
structure TodoistSectionM where
  id : PyStr
  name : PyStr

/-- Embedding of TodoistTask (src/utils/todoist.py); dueDate stands for
the due_date property (the stringified date of the due dict when present,
none otherwise). -/
structure TodoistTaskM where
  id : PyStr
  content : PyStr
  description : PyStr := []
  order : Nat := 0
  priority : Nat := 1
  labels : List PyStr := []
  dueDate : Option PyStr := none
  url : PyStr := []
  is_completed : Bool := false
  created_at : PyStr
  completed_date : Option PyStr := none

/-- Embedding of TodoistComment (src/utils/todoist.py), fields used by the
exporter. -/
structure TodoistCommentM where
  content : PyStr
  posted_at : PyStr

/-- Embedding of the priority_text property of TodoistTask. -/
def priority_text (priority : Nat) : PyStr :=
  if priority = 4 then ("High").data
  else if priority = 3 then ("Medium").data
  else if priority = 2 then ("Low").data
  else ("None").data

def stripCharsPred (p : Char → Bool) (s : PyStr) : PyStr :=
  ((s.dropWhile p).reverse.dropWhile p).reverse

def rstripCharsPred (p : Char → Bool) (s : PyStr) : PyStr :=
  (s.reverse.dropWhile p).reverse

/-- Collapse runs of underscores to a single underscore. -/
def collapseUnderscores (s : PyStr) : PyStr :=
  (s.foldl (fun acc c =>
    if c = '_' then (if acc.2 then acc else (acc.1 ++ ['_'], true))
    else (acc.1 ++ [c], false)) (([] : PyStr), false)).1

/-- Embedding of ObsidianExporter.sanitize_filename (src/utils/todoist.py
lines 294 to 303); the NFKD-normalise-then-ascii-ignore step is modelled
for ASCII input as dropping non-ASCII characters. -/
def sanitize_filename (name : PyStr) : PyStr :=
  let ascii := name.filter (fun c => c.toNat < 128)
  let s1 := ascii.map (fun c =>
    if c = '<' || c = '>' || c = ':' || c = '"' || c = '/' || c = '\\' ||
        c = '|' || c = '?' || c = '*' then '_' else c)
  let s2 := collapseUnderscores s1
  let s3 := stripCharsPred (fun c => c = '_' || c = ' ') s2
  let s4 := if 200 < s3.length then rstripCharsPred (fun c => c = '_') (s3.take 200)
    else s3
  if s4.isEmpty then ("untitled").data else s4

/-- One-character expansion of the sequential escape replaces of
format_yaml_string; the replaces commute with per-character expansion
because no later rule rewrites the output of an earlier one. -/
def escapeYaml (c : Char) : PyStr :=
  if c = '\\' then ['\\', '\\']
  else if c = '"' then ['\\', '"']
  else if c = '\n' then ['\\', 'n']
  else if c = '\t' then ['\\', 't']
  else [c]

/-- Embedding of ObsidianExporter.format_yaml_string (src/utils/todoist.py
lines 305 to 317). -/
def format_yaml_string (value : PyStr) : PyStr :=
  if pyIn ['\x27'] value && !pyIn ['"'] value then '"' :: value ++ ['"']
  else if pyIn ['"'] value && !pyIn ['\x27'] value then '\x27' :: value ++ ['\x27']
  else if pyIn ['"'] value || pyIn ['\x27'] value || pyIn ['\n'] value ||
      pyIn ['\t'] value || pyIn ['\\'] value then
    '"' :: (value.map escapeYaml).flatten ++ ['"']
  else '"' :: value ++ ['"']

/-- Lowercase a string and turn spaces into dashes, as the tag helpers do;
str.lower is modelled for ASCII. -/
def lowerDash (s : PyStr) : PyStr :=
  (s.map Char.toLower).map (fun c => if c = ' ' then '-' else c)

/-- Embedding of ObsidianExporter.format_tags (src/utils/todoist.py lines
319 to 339). -/
def format_tags (cfg : ExportConfig) (task : TodoistTaskM)
    (project : TodoistProjectM) : List PyStr :=
  let tags := ['#' :: cfg.tagBase]
  let tags := tags ++
    ['#' :: cfg.tagBase ++ ("/").data ++ sanitize_filename (lowerDash project.name)]
  let tags := if cfg.priority_as_tags && 1 < task.priority then
      tags ++ ['#' :: cfg.tagBase ++ ("/priority/").data ++
        (priority_text task.priority).map Char.toLower]
    else tags
  let tags := if cfg.labels_as_tags then
      tags ++ task.labels.map (fun label =>
        '#' :: cfg.tagBase ++ ("/label/").data ++ sanitize_filename (lowerDash label))
    else tags
  tags ++ ['#' :: cfg.tagBase ++ ("/status/").data ++
    (if task.is_completed then ("completed").data else ("active").data)]

/-- lstrip of the hash character, as in tag.lstrip in format_frontmatter. -/
def lstripHash (s : PyStr) : PyStr := s.dropWhile (fun c => c = '#')

/-- The quote-comma-quote join separator of the labels and tags lines. -/
def joinQuoted (items : List PyStr) : PyStr :=
  List.intercalate (("\", \"").data) items

/-- Embedding of ObsidianExporter.format_frontmatter (src/utils/todoist.py
lines 341 to 385). -/
def format_frontmatter (cfg : ExportConfig) (task : TodoistTaskM)
    (project : TodoistProjectM) (sect : Option TodoistSectionM) : PyStr :=
  let fm := [("---").data]
  let fm := fm ++ [("title: ").data ++ format_yaml_string task.content]
  let fm := fm ++ [("todoist_id: ").data ++ format_yaml_string task.id]
  let fm := fm ++ [("project: ").data ++ format_yaml_string project.name]
  let fm := fm ++ [("project_id: \"").data ++ project.id ++ ['"']]
  let fm := match sect with
    | some s => fm ++ [("section: ").data ++ format_yaml_string s.name] ++
        [("section_id: \"").data ++ s.id ++ ['"']]
    | none => fm
  let fm := fm ++ [("created: \"").data ++ task.created_at ++ ['"']]
  let fm := match task.dueDate with
    | some d => if !d.isEmpty then fm ++ [("due_date: \"").data ++ d ++ ['"']]
        else fm
    | none => fm
  let fm := fm ++ [("priority: ").data ++ natToPyStr task.priority]
  let fm := fm ++ [("priority_text: \"").data ++ priority_text task.priority ++ ['"']]
  let fm := if !task.labels.isEmpty then
      fm ++ [("labels: [\"").data ++ joinQuoted task.labels ++ ("\"]").data]
    else fm
  let fm := fm ++ [("completed: ").data ++
    (if task.is_completed then ("true").data else ("false").data)]
  let fm := match task.completed_date with
    | some cd => if !cd.isEmpty then
        fm ++ [("completed_date: \"").data ++ cd ++ ['"']]
      else fm
    | none => fm
  let fm := if !task.url.isEmpty then
      fm ++ [("todoist_url: \"").data ++ task.url ++ ['"']]
    else fm
  let tags := format_tags cfg task project
  let fm := if !tags.isEmpty then
      fm ++ [("tags: [\"").data ++ joinQuoted (tags.map lstripHash) ++ ("\"]").data]
    else fm
  let fm := fm ++ [("---").data, []]
  pyUnlines fm

/-- Month abbreviations of strftime with the b directive. -/
def monthAbbrev (m : Nat) : PyStr :=
  (["Jan", "Feb", "Mar", "Apr", "May", "Jun", "Jul", "Aug", "Sep", "Oct",
    "Nov", "Dec"].map String.data).getD (m - 1) []

/-- Replace the Z suffix marker by an explicit offset, as the comment
timestamps are preprocessed. -/
def replaceZ (s : PyStr) : PyStr :=
  (s.map (fun c => if c = 'Z' then ("+00:00").data else [c])).flatten

/-- Approximate model of datetime.fromisoformat for a timestamp: a leading
calendar date, a T or space separator, then hour and minute. -/
def parseIsoDateTime (s : PyStr) : Option (Nat × Nat × Nat × Nat × Nat) :=
  match s with
  | y1 :: y2 :: y3 :: y4 :: '-' :: m1 :: m2 :: '-' :: d1 :: d2 :: sep ::
      h1 :: h2 :: ':' :: n1 :: n2 :: _rest =>
    match digitVal y1, digitVal y2, digitVal y3, digitVal y4,
        digitVal m1, digitVal m2, digitVal d1, digitVal d2,
        digitVal h1, digitVal h2, digitVal n1, digitVal n2 with
    | some a, some b, some c, some d, some e, some f, some g, some h,
        some i, some j, some k, some l =>
      let y := ((a * 10 + b) * 10 + c) * 10 + d
      let mo := e * 10 + f
      let dd := g * 10 + h
      let hh := i * 10 + j
      let mi := k * 10 + l
      if (1 ≤ mo && mo ≤ 12 && 1 ≤ dd && dd ≤ 31) &&
          (sep = 'T' || sep = ' ') && hh ≤ 23 && mi ≤ 59 then
        some (y, mo, dd, hh, mi)
      else none
    | _, _, _, _, _, _, _, _, _, _, _, _ => none
  | _ => none

/-- strftime with day, abbreviated month, hour colon minute. -/
def strftimeDdMonHm (t : Nat × Nat × Nat × Nat × Nat) : PyStr :=
  pad2 t.2.2.1 ++ [' '] ++ monthAbbrev t.2.1 ++ [' '] ++
    pad2 t.2.2.2.1 ++ [':'] ++ pad2 t.2.2.2.2

/-- Embedding of ObsidianExporter.format_task_content (src/utils/todoist.py
lines 387 to 425); a malformed comment timestamp makes fromisoformat raise,
modelled as an error outcome. -/
def format_task_content (cfg : ExportConfig) (task : TodoistTaskM)
    (project : TodoistProjectM) (comments : Option (List TodoistCommentM))
    (child_tasks : Option (List TodoistTaskM)) (sect : Option TodoistSectionM) :
    Except String PyStr :=
  let content := [format_frontmatter cfg task project sect]
  let status_icon := if task.is_completed then ("✅").data else ("⬜").data
  let content := content ++ [("# ").data ++ status_icon ++ [' '] ++ task.content, []]
  let content := if !task.description.isEmpty then
      content ++ [("## Description").data, [], task.description, []]
    else content
  let content := match child_tasks with
    | some cts =>
      if !cts.isEmpty then
        content ++ [("## Subtasks").data, []] ++
          (sortBy (fun a b => decide (a.order ≤ b.order)) cts).map (fun ct =>
            ("- ").data ++
              (if ct.is_completed then ("[x]").data else ("[ ]").data) ++
              [' '] ++ ct.content) ++ [[]]
      else content
    | none => content
  match comments with
  | some cs =>
    if !cs.isEmpty && cfg.include_comments then
      match cs.mapM (fun c =>
        match parseIsoDateTime (replaceZ c.posted_at) with
        | some t => Except.ok (("* ").data ++ strftimeDdMonHm t ++
            (" - ").data ++ c.content)
        | none => Except.error "Invalid isoformat string") with
      | .error e => .error e
      | .ok commentLines =>
        .ok (pyUnlines (content ++ [("## Comments").data, []] ++ commentLines))
    else .ok (pyUnlines content)
  | none => .ok (pyUnlines content)

/-- A completed task as the exporter receives it: completed on 2024-01-15. -/
def c6Task : TodoistTaskM :=
  { id := ("123").data
    content := ("Completed Task").data
    created_at := ("2024-01-10T08:00:00").data
    is_completed := true
    completed_date := some (("2024-01-15T00:00:00").data) }

def c6Project : TodoistProjectM := ⟨("200").data, ("Work").data⟩

/-- The note text the exporter writes for c6Task. -/
def c6File : Option PyStr :=
  (format_task_content {} c6Task c6Project none none none).toOption

/-! ## Theorems -/

theorem foldl_mergeStep_eq_runMerge (T : List PyStr) :
    ∀ (ls : List PyStr) (res : List PyStr) (inD f : Bool),
      ls.foldl (mergeStep T) ⟨res, inD, f⟩ =
        ⟨res ++ (runMerge T inD ls).1, (runMerge T inD ls).2.1,
          f || (runMerge T inD ls).2.2⟩ := by
  intro ls
  induction ls with
  | nil => intro res inD f; simp [runMerge]
  | cons l ls ih =>
    intro res inD f
    by_cases h1 : pyStrip l = diaryHeading
    · simp [mergeStep, runMerge, h1, ih]
    · cases hD : inD
      · simp [mergeStep, runMerge, h1, hD, ih]
      · cases hH : isH2 l
        · simp [mergeStep, runMerge, h1, hD, hH, ih]
        · simp [mergeStep, runMerge, h1, hD, hH, ih]

/-! Basic properties of the Python string model. -/

theorem pyStrip_eq_rdrop (s : PyStr) :
    pyStrip s = List.rdropWhile pySpace (List.dropWhile pySpace s) := rfl

theorem pyStrip_idem (s : PyStr) : pyStrip (pyStrip s) = pyStrip s := by
  rw [pyStrip_eq_rdrop, pyStrip_eq_rdrop]
  cases hu : List.dropWhile pySpace s with
  | nil => simp [List.rdropWhile]
  | cons b u =>
    have hb : ¬ pySpace b := by
      have hl : 0 < (List.dropWhile pySpace s).length := by rw [hu]; simp
      have hz := List.dropWhile_get_zero_not pySpace s hl
      rw [List.get_of_eq hu] at hz
      simpa using hz
    cases hv : List.rdropWhile pySpace (b :: u) with
    | nil => simp [List.rdropWhile]
    | cons c w =>
      have hcb : c = b := by
        have : List.rdropWhile pySpace (b :: u) =
            (List.dropWhile pySpace (u.reverse ++ [b])).reverse := by
          simp [List.rdropWhile]
        rw [this] at hv
        rw [List.dropWhile_append] at hv
        by_cases he : (List.dropWhile pySpace u.reverse).isEmpty
        · simp [he, hb] at hv
          exact hv.1.symm
        · simp [he] at hv
          cases hd : List.dropWhile pySpace u.reverse with
          | nil => rw [hd] at he; simp at he
          | cons d ds =>
            rw [hd] at hv
            simp at hv
            exact hv.1.symm
      have hdw : List.dropWhile pySpace (c :: w) = c :: w := by
        rw [hcb]
        simp [hb]
      rw [hdw]
      have hid := List.rdropWhile_idempotent pySpace (b :: u)
      rw [hv] at hid
      exact hid

theorem pyStrip_eq_nil_iff (s : PyStr) : pyStrip s = [] ↔ ∀ c ∈ s, pySpace c := by
  rw [pyStrip_eq_rdrop, List.rdropWhile_eq_nil_iff]
  constructor
  · intro h
    cases hu : List.dropWhile pySpace s with
    | nil => exact List.dropWhile_eq_nil_iff.mp hu
    | cons b u =>
      have hb : ¬ pySpace b := by
        have hl : 0 < (List.dropWhile pySpace s).length := by rw [hu]; simp
        have hz := List.dropWhile_get_zero_not pySpace s hl
        rw [List.get_of_eq hu] at hz
        simpa using hz
      exact absurd (h b (by rw [hu]; exact List.mem_cons_self b u)) hb
  · intro h x hx
    exact h x (List.Sublist.subset (List.dropWhile_sublist _) hx)

theorem modifyHead_append_left (f : α → α) (l₁ l₂ : List α) (h : l₁ ≠ []) :
    (l₁ ++ l₂).modifyHead f = l₁.modifyHead f ++ l₂ := by
  cases l₁ with
  | nil => exact absurd rfl h
  | cons a t => simp

theorem splitOn_cons_self [DecidableEq α] (sep : α) (xs : List α) :
    (sep :: xs).splitOn sep = [] :: xs.splitOn sep := by
  simp [List.splitOn, List.splitOnP_cons]

theorem splitOn_cons_ne [DecidableEq α] (sep a : α) (xs : List α) (h : ¬ a = sep) :
    (a :: xs).splitOn sep = (xs.splitOn sep).modifyHead (List.cons a) := by
  simp [List.splitOn, List.splitOnP_cons, beq_false_of_ne h]

theorem splitOn_ne_nil [DecidableEq α] (sep : α) (xs : List α) :
    xs.splitOn sep ≠ [] :=
  List.splitOnP_ne_nil _ _

theorem splitOn_append_sep [DecidableEq α] (sep : α) (x y : List α) :
    (x ++ sep :: y).splitOn sep = x.splitOn sep ++ y.splitOn sep := by
  induction x with
  | nil => simp [splitOn_cons_self]
  | cons a x ih =>
    by_cases ha : a = sep
    · subst ha
      rw [List.cons_append, splitOn_cons_self, splitOn_cons_self, ih, List.cons_append]
    · rw [List.cons_append, splitOn_cons_ne _ _ _ ha, splitOn_cons_ne _ _ _ ha, ih,
        modifyHead_append_left _ _ _ (splitOn_ne_nil _ _)]

theorem not_mem_of_mem_splitOn [DecidableEq α] (sep : α) (xs : List α) :
    ∀ l ∈ xs.splitOn sep, sep ∉ l := by
  induction xs with
  | nil =>
    intro l hl
    simp at hl
    simp [hl]
  | cons a xs ih =>
    intro l hl
    by_cases ha : a = sep
    · subst ha
      rw [splitOn_cons_self] at hl
      rcases List.mem_cons.mp hl with h | h
      · simp [h]
      · exact ih l h
    · rw [splitOn_cons_ne _ _ _ ha] at hl
      cases hxs : xs.splitOn sep with
      | nil => exact absurd hxs (splitOn_ne_nil _ _)
      | cons h t =>
        rw [hxs] at hl
        simp only [List.modifyHead] at hl
        rcases List.mem_cons.mp hl with h1 | h1
        · subst h1
          intro hmem
          rcases List.mem_cons.mp hmem with h2 | h2
          · exact ha h2.symm
          · exact ih h (by rw [hxs]; exact List.mem_cons_self _ _) h2
        · exact ih l (by rw [hxs]; exact List.mem_cons_of_mem _ h1)

theorem mem_of_mem_splitOn [DecidableEq α] (sep : α) (xs : List α) :
    ∀ l ∈ xs.splitOn sep, ∀ c ∈ l, c ∈ xs := by
  induction xs with
  | nil =>
    intro l hl
    simp at hl
    simp [hl]
  | cons a xs ih =>
    intro l hl c hc
    by_cases ha : a = sep
    · subst ha
      rw [splitOn_cons_self] at hl
      rcases List.mem_cons.mp hl with h | h
      · subst h; simp at hc
      · exact List.mem_cons_of_mem _ (ih l h c hc)
    · rw [splitOn_cons_ne _ _ _ ha] at hl
      cases hxs : xs.splitOn sep with
      | nil => exact absurd hxs (splitOn_ne_nil _ _)
      | cons h t =>
        rw [hxs] at hl
        simp only [List.modifyHead] at hl
        rcases List.mem_cons.mp hl with h1 | h1
        · subst h1
          rcases List.mem_cons.mp hc with h2 | h2
          · exact h2 ▸ List.mem_cons_self _ _
          · exact List.mem_cons_of_mem _
              (ih h (by rw [hxs]; exact List.mem_cons_self _ _) c h2)
        · exact List.mem_cons_of_mem _
            (ih l (by rw [hxs]; exact List.mem_cons_of_mem _ h1) c hc)

theorem pyUnlines_nil : pyUnlines [] = [] := rfl

theorem pyUnlines_singleton (a : PyStr) : pyUnlines [a] = a := by
  simp [pyUnlines, List.intercalate]

theorem pyUnlines_cons_cons (a b : PyStr) (t : List PyStr) :
    pyUnlines (a :: b :: t) = a ++ '\n' :: pyUnlines (b :: t) := by
  simp [pyUnlines, List.intercalate]

theorem pyUnlines_append (xs ys : List PyStr) (h₁ : xs ≠ []) (h₂ : ys ≠ []) :
    pyUnlines (xs ++ ys) = pyUnlines xs ++ '\n' :: pyUnlines ys := by
  induction xs with
  | nil => exact absurd rfl h₁
  | cons a xs ih =>
    cases xs with
    | nil =>
      cases ys with
      | nil => exact absurd rfl h₂
      | cons b t => simp [pyUnlines_cons_cons, pyUnlines_singleton]
    | cons a' xs' =>
      simp only [List.cons_append]
      rw [pyUnlines_cons_cons a a' (xs' ++ ys), pyUnlines_cons_cons a a' xs']
      have ih' := ih (by simp)
      simp only [List.cons_append] at ih'
      rw [ih']
      simp

theorem mem_pyUnlines (c : Char) (l : PyStr) (ls : List PyStr)
    (hl : l ∈ ls) (hc : c ∈ l) : c ∈ pyUnlines ls := by
  induction ls with
  | nil => simp at hl
  | cons a t ih =>
    cases t with
    | nil =>
      rw [List.mem_singleton] at hl
      subst hl
      simpa [pyUnlines_singleton] using hc
    | cons b t' =>
      rw [pyUnlines_cons_cons]
      rcases List.mem_cons.mp hl with h | h
      · exact List.mem_append_left _ (h ▸ hc)
      · exact List.mem_append_right _ (List.mem_cons_of_mem _ (ih h))

theorem pyUnlines_pyLines (s : PyStr) : pyUnlines (pyLines s) = s :=
  List.intercalate_splitOn s '\n'

theorem pyLines_pyUnlines (ls : List PyStr) (hx : ∀ l ∈ ls, ('\n') ∉ l)
    (hls : ls ≠ []) : pyLines (pyUnlines ls) = ls :=
  List.splitOn_intercalate ls '\n' hx hls

theorem pyLines_ne_nil (s : PyStr) : pyLines s ≠ [] :=
  List.splitOnP_ne_nil _ _

theorem not_newline_mem_pyLines (s : PyStr) : ∀ l ∈ pyLines s, ('\n') ∉ l :=
  not_mem_of_mem_splitOn '\n' s

theorem pyLines_append_sep (x y : PyStr) :
    pyLines (x ++ '\n' :: y) = pyLines x ++ pyLines y :=
  splitOn_append_sep '\n' x y

/-! Structural lemmas about the merge loop. -/

theorem runMerge_append (T xs ys : List PyStr) :
    ∀ inD, runMerge T inD (xs ++ ys) =
      ((runMerge T inD xs).1 ++ (runMerge T (runMerge T inD xs).2.1 ys).1,
       (runMerge T (runMerge T inD xs).2.1 ys).2.1,
       ((runMerge T inD xs).2.2 || (runMerge T (runMerge T inD xs).2.1 ys).2.2)) := by
  induction xs with
  | nil => intro inD; simp [runMerge]
  | cons l xs ih =>
    intro inD
    by_cases h1 : pyStrip l = diaryHeading
    · simp [runMerge, h1, ih]
    · cases hD : inD
      · simp [runMerge, h1, hD, ih]
      · cases hH : isH2 l
        · simp [runMerge, h1, hD, hH, ih]
        · simp [runMerge, h1, hD, hH, ih]

theorem runMerge_copy (T : List PyStr) (ls : List PyStr)
    (h : ∀ l ∈ ls, pyStrip l ≠ diaryHeading) :
    runMerge T false ls = (ls, false, false) := by
  induction ls with
  | nil => simp [runMerge]
  | cons l ls ih =>
    have h1 := h l (List.mem_cons_self _ _)
    simp [runMerge, h1, ih (fun x hx => h x (List.mem_cons_of_mem _ hx))]

theorem runMerge_skip (T : List PyStr) (ls : List PyStr)
    (h : ∀ l ∈ ls, pyStrip l ≠ diaryHeading ∧ isH2 l = false) :
    runMerge T true ls = ([], true, false) := by
  induction ls with
  | nil => simp [runMerge]
  | cons l ls ih =>
    have h1 := h l (List.mem_cons_self _ _)
    simp [runMerge, h1.1, h1.2, ih (fun x hx => h x (List.mem_cons_of_mem _ hx))]

theorem runMerge_not_found (T : List PyStr) :
    ∀ ls, (runMerge T false ls).2.2 = false →
      runMerge T false ls = (ls, false, false) ∧
        ∀ l ∈ ls, pyStrip l ≠ diaryHeading := by
  intro ls
  induction ls with
  | nil => intro _; simp [runMerge]
  | cons l ls ih =>
    intro h
    by_cases h1 : pyStrip l = diaryHeading
    · rw [show runMerge T false (l :: ls) =
          (T ++ (runMerge T true ls).1, (runMerge T true ls).2.1, true) from by
            simp [runMerge, h1]] at h
      simp at h
    · have hstep : runMerge T false (l :: ls) =
          (l :: (runMerge T false ls).1, (runMerge T false ls).2.1,
            (runMerge T false ls).2.2) := by
        simp [runMerge, h1]
      rw [hstep] at h
      obtain ⟨he, hall⟩ := ih h
      refine ⟨by simp [hstep, he], ?_⟩
      intro x hx
      rcases List.mem_cons.mp hx with h2 | h2
      · exact h2 ▸ h1
      · exact hall x h2

theorem runMerge_nlfree (T : List PyStr) (hT : ∀ t ∈ T, ('\n') ∉ t) :
    ∀ ls inD, (∀ l ∈ ls, ('\n') ∉ l) →
      ∀ l ∈ (runMerge T inD ls).1, ('\n') ∉ l := by
  intro ls
  induction ls with
  | nil => intro inD _ l hl; simp [runMerge] at hl
  | cons x ls ih =>
    intro inD h l hl
    have hx := h x (List.mem_cons_self _ _)
    have htail : ∀ l ∈ ls, ('\n') ∉ l := fun y hy => h y (List.mem_cons_of_mem _ hy)
    by_cases h1 : pyStrip x = diaryHeading
    · rw [show runMerge T inD (x :: ls) =
          (T ++ (runMerge T true ls).1, (runMerge T true ls).2.1, true) from by
            simp [runMerge, h1]] at hl
      rcases List.mem_append.mp hl with h2 | h2
      · exact hT l h2
      · exact ih true htail l h2
    · cases hD : inD
      · rw [hD] at hl
        rw [show runMerge T false (x :: ls) =
            (x :: (runMerge T false ls).1, (runMerge T false ls).2.1,
              (runMerge T false ls).2.2) from by simp [runMerge, h1]] at hl
        rcases List.mem_cons.mp hl with h2 | h2
        · exact h2 ▸ hx
        · exact ih false htail l h2
      · rw [hD] at hl
        cases hH : isH2 x
        · rw [show runMerge T true (x :: ls) = runMerge T true ls from by
              simp [runMerge, h1, hH]] at hl
          exact ih true htail l hl
        · rw [show runMerge T true (x :: ls) =
              ([] :: x :: (runMerge T false ls).1, (runMerge T false ls).2.1,
                (runMerge T false ls).2.2) from by simp [runMerge, h1, hH]] at hl
          rcases List.mem_cons.mp hl with h2 | h2
          · subst h2; simp
          · rcases List.mem_cons.mp h2 with h3 | h3
            · exact h3 ▸ hx
            · exact ih false htail l h3

theorem runMerge_found_mem (T : List PyStr) (t0 : PyStr) (rest : List PyStr)
    (hT : T = t0 :: rest) :
    ∀ ls inD, (runMerge T inD ls).2.2 = true → t0 ∈ (runMerge T inD ls).1 := by
  intro ls
  induction ls with
  | nil => intro inD h; simp [runMerge] at h
  | cons x ls ih =>
    intro inD h
    by_cases h1 : pyStrip x = diaryHeading
    · rw [show runMerge T inD (x :: ls) =
          (T ++ (runMerge T true ls).1, (runMerge T true ls).2.1, true) from by
            simp [runMerge, h1]]
      exact List.mem_append_left _ (hT ▸ List.mem_cons_self _ _)
    · cases hD : inD
      · have hstep : runMerge T false (x :: ls) =
            (x :: (runMerge T false ls).1, (runMerge T false ls).2.1,
              (runMerge T false ls).2.2) := by simp [runMerge, h1]
        rw [hD] at h
        rw [hstep] at h ⊢
        exact List.mem_cons_of_mem _ (ih false h)
      · cases hH : isH2 x
        · have hstep : runMerge T true (x :: ls) = runMerge T true ls := by
            simp [runMerge, h1, hH]
          rw [hD] at h
          rw [hstep] at h ⊢
          exact ih true h
        · have hstep : runMerge T true (x :: ls) =
              ([] :: x :: (runMerge T false ls).1, (runMerge T false ls).2.1,
                (runMerge T false ls).2.2) := by simp [runMerge, h1, hH]
          rw [hD] at h
          rw [hstep] at h ⊢
          exact List.mem_cons_of_mem _ (List.mem_cons_of_mem _ (ih false h))

theorem runMerge_fix (T : List PyStr) (t0 : PyStr) (rest : List PyStr)
    (hT : T = t0 :: rest) (ht0 : pyStrip t0 = diaryHeading)
    (hrest : ∀ t ∈ rest, pyStrip t ≠ diaryHeading ∧ isH2 t = false) :
    ∀ ls inD, (runMerge T inD ((runMerge T inD ls).1)).1 = (runMerge T inD ls).1 ∧
      (runMerge T inD ((runMerge T inD ls).1)).2.2 = (runMerge T inD ls).2.2 := by
  intro ls
  induction ls with
  | nil => intro inD; simp [runMerge]
  | cons x ls ih =>
    intro inD
    by_cases h1 : pyStrip x = diaryHeading
    · have hstep : runMerge T inD (x :: ls) =
          (T ++ (runMerge T true ls).1, (runMerge T true ls).2.1, true) := by
        simp [runMerge, h1]
      rw [hstep]
      have happ := runMerge_append T rest ((runMerge T true ls).1) true
      rw [runMerge_skip T rest hrest] at happ
      have hre : runMerge T inD (T ++ (runMerge T true ls).1) =
          (T ++ (runMerge T true (rest ++ (runMerge T true ls).1)).1,
            (runMerge T true (rest ++ (runMerge T true ls).1)).2.1, true) := by
        rw [hT]
        simp [runMerge, ht0]
      rw [hre, happ]
      obtain ⟨ho, hf⟩ := ih true
      constructor
      · simp only [List.nil_append]
        rw [ho]
      · rfl
    · cases hD : inD
      · have hstep : runMerge T false (x :: ls) =
            (x :: (runMerge T false ls).1, (runMerge T false ls).2.1,
              (runMerge T false ls).2.2) := by simp [runMerge, h1]
        rw [hstep]
        have hstep2 : runMerge T false (x :: (runMerge T false ls).1) =
            (x :: (runMerge T false ((runMerge T false ls).1)).1,
              (runMerge T false ((runMerge T false ls).1)).2.1,
              (runMerge T false ((runMerge T false ls).1)).2.2) := by
          simp [runMerge, h1]
        rw [hstep2]
        obtain ⟨ho, hf⟩ := ih false
        exact ⟨by simp [ho], by simp [hf]⟩
      · cases hH : isH2 x
        · have hstep : runMerge T true (x :: ls) = runMerge T true ls := by
            simp [runMerge, h1, hH]
          rw [hstep]
          exact ih true
        · have hstep : runMerge T true (x :: ls) =
              ([] :: x :: (runMerge T false ls).1, (runMerge T false ls).2.1,
                (runMerge T false ls).2.2) := by simp [runMerge, h1, hH]
          rw [hstep]
          have hnil1 : ¬ (pyStrip ([] : PyStr) = diaryHeading) := by decide
          have hnil2 : isH2 ([] : PyStr) = false := by decide
          have hre : runMerge T true ([] :: x :: (runMerge T false ls).1) =
              ([] :: x :: (runMerge T false ((runMerge T false ls).1)).1,
                (runMerge T false ((runMerge T false ls).1)).2.1,
                (runMerge T false ((runMerge T false ls).1)).2.2) := by
            simp [runMerge, hnil1, hnil2, h1, hH]
          rw [hre]
          obtain ⟨ho, hf⟩ := ih false
          exact ⟨by simp [ho], by simp [hf]⟩

theorem countHeading_append (xs ys : List PyStr) :
    countHeading (xs ++ ys) = countHeading xs + countHeading ys := by
  simp [countHeading, List.countP_append]

theorem countHeading_cons_pos (x : PyStr) (ls : List PyStr)
    (h : pyStrip x = diaryHeading) :
    countHeading (x :: ls) = countHeading ls + 1 := by
  simp [countHeading, List.countP_cons, h]

theorem countHeading_cons_neg (x : PyStr) (ls : List PyStr)
    (h : ¬ pyStrip x = diaryHeading) :
    countHeading (x :: ls) = countHeading ls := by
  simp [countHeading, List.countP_cons, h]

theorem runMerge_countHeading (T : List PyStr) :
    ∀ ls inD, countHeading (runMerge T inD ls).1 =
      countHeading ls * countHeading T := by
  intro ls
  induction ls with
  | nil => intro inD; simp [runMerge, countHeading]
  | cons x ls ih =>
    intro inD
    by_cases h1 : pyStrip x = diaryHeading
    · rw [show runMerge T inD (x :: ls) =
          (T ++ (runMerge T true ls).1, (runMerge T true ls).2.1, true) from by
            simp [runMerge, h1]]
      rw [countHeading_append, ih true, countHeading_cons_pos _ _ h1]
      ring
    · cases hD : inD
      · rw [show runMerge T false (x :: ls) =
            (x :: (runMerge T false ls).1, (runMerge T false ls).2.1,
              (runMerge T false ls).2.2) from by simp [runMerge, h1]]
        rw [countHeading_cons_neg _ _ h1, countHeading_cons_neg _ _ h1, ih false]
      · cases hH : isH2 x
        · rw [show runMerge T true (x :: ls) = runMerge T true ls from by
              simp [runMerge, h1, hH]]
          rw [countHeading_cons_neg _ _ h1, ih true]
        · rw [show runMerge T true (x :: ls) =
              ([] :: x :: (runMerge T false ls).1, (runMerge T false ls).2.1,
                (runMerge T false ls).2.2) from by simp [runMerge, h1, hH]]
          have hnil1 : ¬ (pyStrip ([] : PyStr) = diaryHeading) := by decide
          rw [countHeading_cons_neg _ _ hnil1, countHeading_cons_neg _ _ h1,
            countHeading_cons_neg _ _ h1, ih false]

theorem replace_eq_of_strip_ne (D S : PyStr) (hD : ¬ pyStrip D = []) :
    replace_diary_section D S =
      pyUnlines (if (runMerge (pyLines (pyStrip S)) false (pyLines D)).2.2 then
          (runMerge (pyLines (pyStrip S)) false (pyLines D)).1
        else
          (runMerge (pyLines (pyStrip S)) false (pyLines D)).1 ++ [[], pyStrip S]) := by
  unfold replace_diary_section
  rw [if_neg hD]
  simp only [foldl_mergeStep_eq_runMerge]
  simp

theorem pyStrip_subset (s : PyStr) : ∀ c ∈ pyStrip s, c ∈ s := by
  intro c hc
  rw [pyStrip_eq_rdrop] at hc
  have h1 : c ∈ List.dropWhile pySpace s :=
    ( List.rdropWhile_prefix pySpace (List.dropWhile pySpace s)).subset hc
  exact (List.dropWhile_sublist _).subset h1

/-- C8: merging into an empty or whitespace-only existing document returns
exactly the new section trimmed of leading and trailing whitespace
(src/utils/obsidian.py lines 21 and 22). -/
theorem c8_merge_empty_input (D S : PyStr) (h : pyStrip D = []) :
    replace_diary_section D S = pyStrip S := by
  unfold replace_diary_section
  rw [if_pos h]

/-- C8 witness: the empty document with the section of the spec example. -/
theorem c8_merge_empty_input_witness :
    pyStrip ([] : PyStr) = [] ∧
      replace_diary_section [] ("## Diary\n\n### Events\nfoo".data) =
        pyStrip ("## Diary\n\n### Events\nfoo".data) :=
  ⟨by decide, c8_merge_empty_input [] _ (by decide)⟩

/-- C9: for a document that is not whitespace-only and has no line whose
trimmed content is the diary heading, the merge preserves the document and
appends one blank line followed by the trimmed new section. -/
theorem c9_merge_appends_when_absent (D S : PyStr) (hD : ¬ pyStrip D = [])
    (h : ∀ l ∈ pyLines D, pyStrip l ≠ diaryHeading) :
    replace_diary_section D S = D ++ '\n' :: '\n' :: pyStrip S := by
  rw [replace_eq_of_strip_ne D S hD]
  rw [runMerge_copy (pyLines (pyStrip S)) (pyLines D) h]
  rw [if_neg (by simp)]
  show pyUnlines (pyLines D ++ [[], pyStrip S]) = _
  rw [pyUnlines_append (pyLines D) [[], pyStrip S] (pyLines_ne_nil D) (by simp)]
  rw [pyUnlines_pyLines]
  rw [show pyUnlines [[], pyStrip S] = '\n' :: pyStrip S from by
    rw [pyUnlines_cons_cons, pyUnlines_singleton]; simp]

/-- C9 witness: the example of the spec, a document with only an Other
section and a fresh diary section. -/
theorem c9_merge_appends_witness :
    (¬ pyStrip ("## Other\nstuff".data) = []) ∧
      replace_diary_section ("## Other\nstuff".data) ("## Diary\nbody".data) =
        ("## Other\nstuff".data) ++ '\n' :: '\n' :: pyStrip ("## Diary\nbody".data) :=
  ⟨by decide, c9_merge_appends_when_absent _ _ (by decide) (by decide)⟩

/-- C1 counterexample: for the empty document and a new section that does not
contain the diary heading, merging twice is not the same as merging once; the
second merge appends a second copy of the section. -/
theorem c1_idempotence_counterexample :
    replace_diary_section (replace_diary_section [] ("x".data)) ("x".data) ≠
      replace_diary_section [] ("x".data) := by decide

theorem hash_not_space : ¬ pySpace '#' := by decide

/-- C1 amended: the merge is idempotent for every existing document provided
the trimmed new section is a well-formed diary section: its first line trims
to the diary heading and no later line is a level-2 heading or trims to the
diary heading.  Without that proviso idempotence fails, see the
counterexample. -/
theorem c1_idempotent_on_diary_sections (D S : PyStr) (t0 : PyStr)
    (rest : List PyStr) (hT : pyLines (pyStrip S) = t0 :: rest)
    (ht0 : pyStrip t0 = diaryHeading)
    (hrest : ∀ t ∈ rest, pyStrip t ≠ diaryHeading ∧ isH2 t = false) :
    replace_diary_section (replace_diary_section D S) S =
      replace_diary_section D S := by
  have hhash : ('#') ∈ t0 := by
    have h1 : ('#') ∈ pyStrip t0 := by rw [ht0]; decide
    exact pyStrip_subset t0 '#' h1
  have hSne : ¬ pyStrip S = [] := by
    intro h0
    rw [h0] at hT
    simp only [pyLines, List.splitOn_nil] at hT
    have h1 : t0 = [] := (List.cons.injEq _ _ _ _ ▸ hT).1.symm
    rw [h1] at ht0
    exact absurd ht0 (by decide)
  have hTnl : ∀ t ∈ pyLines (pyStrip S), ('\n') ∉ t :=
    not_newline_mem_pyLines (pyStrip S)
  by_cases hD0 : pyStrip D = []
  · rw [show replace_diary_section D S = pyStrip S from by
      unfold replace_diary_section; rw [if_pos hD0]]
    have hne : ¬ pyStrip (pyStrip S) = [] := by rw [pyStrip_idem]; exact hSne
    rw [replace_eq_of_strip_ne _ _ hne]
    rw [hT]
    have hrun : runMerge (t0 :: rest) false (t0 :: rest) =
        ((t0 :: rest) ++ (runMerge (t0 :: rest) true rest).1,
          (runMerge (t0 :: rest) true rest).2.1, true) := by
      simp [runMerge, ht0]
    rw [runMerge_skip _ _ hrest] at hrun
    rw [hrun]
    have hU : pyUnlines (t0 :: rest) = pyStrip S := by
      rw [← hT, pyUnlines_pyLines]
    simp [hU]
  · rw [replace_eq_of_strip_ne D S hD0]
    by_cases hf : (runMerge (pyLines (pyStrip S)) false (pyLines D)).2.2 = true
    case neg =>
      have hf0 : (runMerge (pyLines (pyStrip S)) false (pyLines D)).2.2 = false := by
        simpa using hf
      obtain ⟨heq, hall⟩ := runMerge_not_found (pyLines (pyStrip S)) (pyLines D) hf0
      rw [if_neg hf]
      rw [show (runMerge (pyLines (pyStrip S)) false (pyLines D)).1 = pyLines D from by
        rw [heq]]
      have hMeq : pyUnlines (pyLines D ++ [[], pyStrip S]) =
          pyUnlines ((pyLines D ++ [[]]) ++ (t0 :: rest)) := by
        rw [pyUnlines_append (pyLines D) [[], pyStrip S] (pyLines_ne_nil D) (by simp)]
        rw [pyUnlines_append (pyLines D ++ [[]]) (t0 :: rest) (by simp) (by simp)]
        rw [pyUnlines_append (pyLines D) [[]] (pyLines_ne_nil D) (by simp)]
        rw [show pyUnlines (t0 :: rest) = pyStrip S from by rw [← hT, pyUnlines_pyLines]]
        rw [show pyUnlines [[], pyStrip S] = '\n' :: pyStrip S from by
          rw [pyUnlines_cons_cons, pyUnlines_singleton]; simp]
        simp [pyUnlines_singleton]
      rw [hMeq]
      have hnlL : ∀ l ∈ (pyLines D ++ [[]]) ++ (t0 :: rest), ('\n') ∉ l := by
        intro l hl
        rcases List.mem_append.mp hl with h1 | h1
        · rcases List.mem_append.mp h1 with h2 | h2
          · exact not_newline_mem_pyLines D l h2
          · simp at h2; subst h2; simp
        · rw [← hT] at h1
          exact hTnl l h1
      have hMne : ¬ pyStrip (pyUnlines ((pyLines D ++ [[]]) ++ (t0 :: rest))) = [] := by
        intro h0
        rw [pyStrip_eq_nil_iff] at h0
        have hmem : ('#') ∈ pyUnlines ((pyLines D ++ [[]]) ++ (t0 :: rest)) :=
          mem_pyUnlines '#' t0 _ (by simp) hhash
        exact absurd (h0 '#' hmem) hash_not_space
      rw [replace_eq_of_strip_ne _ _ hMne]
      rw [pyLines_pyUnlines _ hnlL (by simp)]
      have h1 : runMerge (pyLines (pyStrip S)) false (pyLines D ++ [[]]) =
          (pyLines D ++ [[]], false, false) := by
        refine runMerge_copy _ _ ?_
        intro l hl
        rcases List.mem_append.mp hl with h2 | h2
        · exact hall l h2
        · simp at h2; subst h2; decide
      have h2 : runMerge (pyLines (pyStrip S)) false (t0 :: rest) =
          (pyLines (pyStrip S), true, true) := by
        have hrun : runMerge (pyLines (pyStrip S)) false (t0 :: rest) =
            ((pyLines (pyStrip S)) ++ (runMerge (pyLines (pyStrip S)) true rest).1,
              (runMerge (pyLines (pyStrip S)) true rest).2.1, true) := by
          simp [runMerge, ht0]
        rw [runMerge_skip _ _ hrest] at hrun
        simpa using hrun
      have happ2 : runMerge (pyLines (pyStrip S)) false
          ((pyLines D ++ [[]]) ++ (t0 :: rest)) =
          ((pyLines D ++ [[]]) ++ pyLines (pyStrip S), true, true) := by
        rw [runMerge_append (pyLines (pyStrip S)) (pyLines D ++ [[]]) (t0 :: rest) false,
          h1]
        simp [h2]
      rw [happ2]
      simp [hT]
    case pos =>
      have ht0mem : t0 ∈ (runMerge (pyLines (pyStrip S)) false (pyLines D)).1 :=
        runMerge_found_mem (pyLines (pyStrip S)) t0 rest hT (pyLines D) false hf
      have hout_ne : (runMerge (pyLines (pyStrip S)) false (pyLines D)).1 ≠ [] :=
        List.ne_nil_of_mem ht0mem
      have hnlout : ∀ l ∈ (runMerge (pyLines (pyStrip S)) false (pyLines D)).1,
          ('\n') ∉ l :=
        runMerge_nlfree _ hTnl (pyLines D) false (not_newline_mem_pyLines D)
      rw [if_pos hf]
      have hMne : ¬ pyStrip
          (pyUnlines ((runMerge (pyLines (pyStrip S)) false (pyLines D)).1)) = [] := by
        intro h0
        rw [pyStrip_eq_nil_iff] at h0
        have hmem := mem_pyUnlines '#' t0 _ ht0mem hhash
        exact absurd (h0 '#' hmem) hash_not_space
      rw [replace_eq_of_strip_ne _ _ hMne]
      rw [pyLines_pyUnlines _ hnlout hout_ne]
      obtain ⟨ho, hfo⟩ := runMerge_fix (pyLines (pyStrip S)) t0 rest hT ht0 hrest
        (pyLines D) false
      rw [hfo, if_pos hf, ho]

/-- C1 witness: a concrete document and a well-formed diary section. -/
theorem c1_idempotent_witness :
    pyLines (pyStrip ("## Diary\nnew".data)) = ("## Diary".data) :: [("new".data)] ∧
      replace_diary_section
          (replace_diary_section ("# Note\n\n## Diary\nold".data) ("## Diary\nnew".data))
          ("## Diary\nnew".data) =
        replace_diary_section ("# Note\n\n## Diary\nold".data) ("## Diary\nnew".data) :=
  ⟨by decide,
    c1_idempotent_on_diary_sections _ _ ("## Diary".data) [("new".data)]
      (by decide) (by decide) (by decide)⟩

/-- C10: when the trimmed line equal to the diary heading occurs at least
twice in the document, and the trimmed new section contains exactly one such
heading line, the merged output contains one inserted copy of the new section
per occurrence: its heading-line count equals the number of occurrences in
the input rather than one. -/
theorem c10_duplicate_headings (D S : PyStr)
    (hk : 2 ≤ countHeading (pyLines D))
    (hS : countHeading (pyLines (pyStrip S)) = 1) :
    countHeading (pyLines (replace_diary_section D S)) = countHeading (pyLines D) := by
  have hpos : 0 < (pyLines D).countP (fun l => decide (pyStrip l = diaryHeading)) := by
    have : (0 : Nat) < 2 := by norm_num
    exact lt_of_lt_of_le this hk
  obtain ⟨lh, hlh, hlhp⟩ := List.countP_pos_iff.mp hpos
  have hlhead : pyStrip lh = diaryHeading := of_decide_eq_true hlhp
  have hD0 : ¬ pyStrip D = [] := by
    intro h0
    rw [pyStrip_eq_nil_iff] at h0
    have hhashl : ('#') ∈ lh := pyStrip_subset lh '#' (by rw [hlhead]; decide)
    have : ('#') ∈ D := mem_of_mem_splitOn '\n' D lh hlh '#' hhashl
    exact absurd (h0 '#' this) hash_not_space
  have hfound : (runMerge (pyLines (pyStrip S)) false (pyLines D)).2.2 = true := by
    by_contra hcon
    have hf0 : (runMerge (pyLines (pyStrip S)) false (pyLines D)).2.2 = false := by
      simpa using hcon
    obtain ⟨_, hall⟩ := runMerge_not_found (pyLines (pyStrip S)) (pyLines D) hf0
    exact hall lh hlh hlhead
  obtain ⟨t0, rest, hT⟩ : ∃ t0 rest, pyLines (pyStrip S) = t0 :: rest := by
    cases hc : pyLines (pyStrip S) with
    | nil => exact absurd hc (pyLines_ne_nil _)
    | cons a b => exact ⟨a, b, rfl⟩
  have ht0mem : t0 ∈ (runMerge (pyLines (pyStrip S)) false (pyLines D)).1 :=
    runMerge_found_mem (pyLines (pyStrip S)) t0 rest hT (pyLines D) false hfound
  have hout_ne : (runMerge (pyLines (pyStrip S)) false (pyLines D)).1 ≠ [] :=
    List.ne_nil_of_mem ht0mem
  have hnlout : ∀ l ∈ (runMerge (pyLines (pyStrip S)) false (pyLines D)).1,
      ('\n') ∉ l :=
    runMerge_nlfree _ (not_newline_mem_pyLines (pyStrip S)) (pyLines D) false
      (not_newline_mem_pyLines D)
  rw [replace_eq_of_strip_ne _ _ hD0, if_pos hfound]
  rw [pyLines_pyUnlines _ hnlout hout_ne]
  rw [runMerge_countHeading]
  rw [hS, Nat.mul_one]

/-- C10 witness: a document with two diary headings; the output keeps two. -/
theorem c10_duplicate_headings_witness :
    2 ≤ countHeading (pyLines ("## Diary\na\n\n## Diary\nb".data)) ∧
      countHeading (pyLines
        (replace_diary_section ("## Diary\na\n\n## Diary\nb".data)
          ("## Diary\nnew".data))) =
        countHeading (pyLines ("## Diary\na\n\n## Diary\nb".data)) :=
  ⟨by decide, c10_duplicate_headings _ _ (by decide) (by decide)⟩

theorem pyLines_cons_newline (y : PyStr) : pyLines ('\n' :: y) = [] :: pyLines y :=
  splitOn_cons_self '\n' y

/-- C2: for a document made of a section A, the diary section with body old,
and a section B, merging a well-formed diary section with body new keeps the
A and B blocks byte-identical and in order and replaces the old diary body by
the new one. -/
theorem c2_preserves_foreign_sections (foo old bar new : PyStr)
    (hfoo : ∀ l ∈ pyLines foo, pyStrip l ≠ diaryHeading)
    (hold : ∀ l ∈ pyLines old, pyStrip l ≠ diaryHeading ∧ isH2 l = false)
    (hbar : ∀ l ∈ pyLines bar, pyStrip l ≠ diaryHeading)
    (hnew : pyStrip ("## Diary\n".data ++ new) = "## Diary\n".data ++ new) :
    replace_diary_section
        ("## A\n".data ++ foo ++ "\n\n## Diary\n".data ++ old ++
          "\n\n## B\n".data ++ bar)
        ("## Diary\n".data ++ new) =
      "## A\n".data ++ foo ++ "\n\n## Diary\n".data ++ new ++
        "\n\n## B\n".data ++ bar := by
  have hA1 : ("## A\n".data : PyStr) = "## A".data ++ ['\n'] := by decide
  have hA2 : ("\n\n## Diary\n".data : PyStr) =
      '\n' :: '\n' :: ("## Diary".data ++ ['\n']) := by decide
  have hA3 : ("\n\n## B\n".data : PyStr) =
      '\n' :: '\n' :: ("## B".data ++ ['\n']) := by decide
  have hDia : ("## Diary\n".data : PyStr) = "## Diary".data ++ ['\n'] := by decide
  have e1 : ∀ mid : PyStr,
      pyLines ("## A\n".data ++ foo ++ "\n\n## Diary\n".data ++ mid ++
          "\n\n## B\n".data ++ bar) =
        (["## A".data] ++ pyLines foo ++ [[]]) ++
          ((["## Diary".data] ++ pyLines mid ++ [[]]) ++
            (["## B".data] ++ pyLines bar)) := by
    intro mid
    rw [show ("## A\n".data ++ foo ++ "\n\n## Diary\n".data ++ mid ++
        "\n\n## B\n".data ++ bar : PyStr) =
        "## A".data ++ '\n' :: (foo ++ '\n' ::
          ('\n' :: ("## Diary".data ++ '\n' :: (mid ++ '\n' ::
            ('\n' :: ("## B".data ++ '\n' :: bar)))))) from by
      rw [hA1, hA2, hA3]
      simp [List.append_assoc]]
    rw [pyLines_append_sep, pyLines_append_sep, pyLines_cons_newline,
      pyLines_append_sep, pyLines_append_sep, pyLines_cons_newline,
      pyLines_append_sep]
    rw [show pyLines ("## A".data) = [("## A".data)] from by decide]
    rw [show pyLines ("## Diary".data) = [("## Diary".data)] from by decide]
    rw [show pyLines ("## B".data) = [("## B".data)] from by decide]
    simp [List.append_assoc]
  have hTd : pyLines ("## Diary\n".data ++ new) =
      ("## Diary".data) :: pyLines new := by
    rw [show ("## Diary\n".data ++ new : PyStr) = "## Diary".data ++ '\n' :: new from by
      rw [hDia]; simp [List.append_assoc]]
    rw [pyLines_append_sep]
    rw [show pyLines ("## Diary".data) = [("## Diary".data)] from by decide]
    rfl
  have hD0 : ¬ pyStrip ("## A\n".data ++ foo ++ "\n\n## Diary\n".data ++ old ++
      "\n\n## B\n".data ++ bar) = [] := by
    intro h0
    rw [pyStrip_eq_nil_iff] at h0
    have hh : ('#') ∈ ("## A\n".data : PyStr) := by decide
    exact absurd
      (h0 '#' (List.mem_append_left _ (List.mem_append_left _
        (List.mem_append_left _ (List.mem_append_left _
          (List.mem_append_left _ hh)))))) hash_not_space
  rw [replace_eq_of_strip_ne _ _ hD0, hnew, hTd, e1 old]
  have hrun1 : runMerge (("## Diary".data) :: pyLines new) false
      (["## A".data] ++ pyLines foo ++ [[]]) =
      (["## A".data] ++ pyLines foo ++ [[]], false, false) := by
    refine runMerge_copy _ _ ?_
    intro l hl
    rcases List.mem_append.mp hl with h1 | h1
    · rcases List.mem_append.mp h1 with h2 | h2
      · simp at h2; subst h2; decide
      · exact hfoo l h2
    · simp at h1; subst h1; decide
  have hsk : runMerge (("## Diary".data) :: pyLines new) true
      (pyLines old ++ [[]]) = ([], true, false) := by
    refine runMerge_skip _ _ ?_
    intro l hl
    rcases List.mem_append.mp hl with h1 | h1
    · exact hold l h1
    · simp at h1; subst h1; exact ⟨by decide, by decide⟩
  have hrun2 : runMerge (("## Diary".data) :: pyLines new) false
      (["## Diary".data] ++ pyLines old ++ [[]]) =
      (("## Diary".data) :: pyLines new, true, true) := by
    have hstep : (["## Diary".data] ++ pyLines old ++ [[]] : List PyStr) =
        ("## Diary".data) :: (pyLines old ++ [[]]) := by simp
    rw [hstep]
    simp [runMerge, (by decide : pyStrip ("## Diary".data) = diaryHeading), hsk]
  have hrun3 : runMerge (("## Diary".data) :: pyLines new) true
      (["## B".data] ++ pyLines bar) =
      ([] :: ("## B".data) :: pyLines bar, false, false) := by
    have hstep : (["## B".data] ++ pyLines bar : List PyStr) =
        ("## B".data) :: pyLines bar := by simp
    rw [hstep]
    simp [runMerge, (by decide : ¬ pyStrip ("## B".data) = diaryHeading),
      (by decide : isH2 ("## B".data) = true), runMerge_copy _ _ hbar]
  have h23 : runMerge (("## Diary".data) :: pyLines new) false
      ((["## Diary".data] ++ pyLines old ++ [[]]) ++
        (["## B".data] ++ pyLines bar)) =
      ((("## Diary".data) :: pyLines new) ++ ([] :: ("## B".data) :: pyLines bar),
        false, true) := by
    rw [runMerge_append _ (["## Diary".data] ++ pyLines old ++ [[]])
      (["## B".data] ++ pyLines bar) false, hrun2]
    dsimp only
    rw [hrun3]
    rfl
  have hfull : runMerge (("## Diary".data) :: pyLines new) false
      ((["## A".data] ++ pyLines foo ++ [[]]) ++
        ((["## Diary".data] ++ pyLines old ++ [[]]) ++
          (["## B".data] ++ pyLines bar))) =
      ((["## A".data] ++ pyLines foo ++ [[]]) ++
        ((("## Diary".data) :: pyLines new) ++
          ([] :: ("## B".data) :: pyLines bar)), false, true) := by
    rw [runMerge_append _ (["## A".data] ++ pyLines foo ++ [[]])
      ((["## Diary".data] ++ pyLines old ++ [[]]) ++
        (["## B".data] ++ pyLines bar)) false, hrun1]
    dsimp only
    rw [h23]
    rfl
  rw [hfull, if_pos rfl]
  have hOUT : pyUnlines ((["## A".data] ++ pyLines foo ++ [[]]) ++
      ((("## Diary".data) :: pyLines new) ++
        ([] :: ("## B".data) :: pyLines bar))) =
      "## A\n".data ++ foo ++ "\n\n## Diary\n".data ++ new ++
        "\n\n## B\n".data ++ bar := by
    rw [show ((["## A".data] ++ pyLines foo ++ [[]]) ++
        ((("## Diary".data) :: pyLines new) ++
          ([] :: ("## B".data) :: pyLines bar)) : List PyStr) =
        pyLines ("## A\n".data ++ foo ++ "\n\n## Diary\n".data ++ new ++
          "\n\n## B\n".data ++ bar) from by
      rw [e1 new]; simp [List.append_assoc]]
    exact pyUnlines_pyLines _
  exact hOUT

/-- C2 witness: the exact example of the spec; the old body is gone from the
output and the new body is present. -/
theorem c2_preserves_foreign_sections_witness :
    replace_diary_section ("## A\nfoo\n\n## Diary\nold\n\n## B\nbar".data)
        ("## Diary\nnew".data) =
      ("## A\nfoo\n\n## Diary\nnew\n\n## B\nbar".data) ∧
    pyIn ("old".data) ("## A\nfoo\n\n## Diary\nnew\n\n## B\nbar".data) = false ∧
    pyIn ("new".data) ("## A\nfoo\n\n## Diary\nnew\n\n## B\nbar".data) = true := by
  refine ⟨?_, by decide, by decide⟩
  show replace_diary_section ("## A\n".data ++ "foo".data ++ "\n\n## Diary\n".data ++
      "old".data ++ "\n\n## B\n".data ++ "bar".data)
      ("## Diary\n".data ++ "new".data) =
    "## A\n".data ++ "foo".data ++ "\n\n## Diary\n".data ++ "new".data ++
      "\n\n## B\n".data ++ "bar".data
  exact c2_preserves_foreign_sections ("foo".data) ("old".data) ("bar".data)
    ("new".data) (by decide) (by decide) (by decide) (by decide)

/-- C4 counterexample: the extensions-dialect entry of the claim, written
without a type key as in the spec, is rejected by MCPConfiguration
validation; the corresponding legacy command/args entry parses (the command
string is consumed as the type) but launch-descriptor construction fails
because the command key is never copied into the runtime config.  Neither
dialect resolves, so the two cannot resolve to identical descriptors. -/
theorem c4_dialect_counterexample :
    create_mcp_configuration "server"
        (.dict { cmd := some "x", args := some ["a"], envs := some [("K", "v")] }) =
      .error "MCP type cannot be empty" ∧
    (create_mcp_configuration "server"
        (.dict { command := some "x", args := some ["a"],
                 envs := some [("K", "v")] })).bind
        (fun cfg => get_server_params cfg (fun _ => "")) =
      .error ("No command specified for MCP \x27server\x27") :=
  ⟨rfl, rfl⟩

/-- C4 amended: with an explicit nonempty type key the extensions dialect
resolves to the expected launch descriptor, while the legacy command/args
dialect never yields a launch descriptor: its command is consumed as the
entry type and descriptor construction fails with the no-command error. -/
theorem c4_dialect_resolution (name T cmd : String) (args : List String)
    (envs : List (String × String)) (host : String → String)
    (hname : name ≠ "") (hT : T ≠ "") (hcmd : cmd ≠ "")
    (henvs : envs ≠ []) :
    (create_mcp_configuration name
        (.dict { type := some T, cmd := some cmd, args := some args,
                 envs := some envs })).bind
        (fun cfg => get_server_params cfg host) =
      .ok ⟨cmd, args, envs⟩ ∧
    (create_mcp_configuration name
        (.dict { command := some cmd, args := some args,
                 envs := some envs })).bind
        (fun cfg => get_server_params cfg host) =
      .error ("No command specified for MCP \x27" ++ name ++ "\x27") := by
  constructor
  · simp [create_mcp_configuration, mkMCPConfiguration, get_server_params,
      Except.bind, ConfigMap.isEmptyMap, hname, hT, hcmd, henvs]
  · simp [create_mcp_configuration, mkMCPConfiguration, get_server_params,
      Except.bind, ConfigMap.isEmptyMap, hname, hcmd]

/-- C4 witness: concrete instantiation of the amended dialect theorem. -/
theorem c4_dialect_resolution_witness :
    (create_mcp_configuration "server"
        (.dict { type := some "t", cmd := some "x", args := some ["a"],
                 envs := some [("K", "v")] })).bind
        (fun cfg => get_server_params cfg (fun _ => "")) =
      .ok ⟨"x", ["a"], [("K", "v")]⟩ ∧
    (create_mcp_configuration "server"
        (.dict { command := some "x", args := some ["a"],
                 envs := some [("K", "v")] })).bind
        (fun cfg => get_server_params cfg (fun _ => "")) =
      .error ("No command specified for MCP \x27server\x27") :=
  c4_dialect_resolution "server" "t" "x" ["a"] [("K", "v")] (fun _ => "")
    (by decide) (by decide) (by decide) (by decide)

/-- C3 counterexample: a subprocess launch failure propagates out of
get_response as an exception instead of an absent sentinel, and a response
with no candidates makes get_response return a fixed message string, logged
as a warning without the tool name and with no error-level log entry. -/
theorem c3_absent_counterexample :
    (get_response c3EnvLaunchFail "calendar" "p").1 = .error "failed to spawn" ∧
    (get_response c3EnvNoCandidates "calendar" "p").1 =
      .ok ("I couldn\x27t generate a proper response.",
        [⟨"user", MsgContent.text "p"⟩]) ∧
    ((get_response c3EnvNoCandidates "calendar" "p").2.filter
        (fun en => en.1 == LogLevel.error)) = [] ∧
    (LogLevel.warning, "No candidates in Gemini response") ∈
      (get_response c3EnvNoCandidates "calendar" "p").2 :=
  ⟨rfl, rfl, rfl, by decide⟩

/-- C3 amended: launch, handshake and list-tools failures propagate out of
get_response; an exception from the model send is caught and turned into an
apology string in the returned text, logged as an error without the tool
name; a response with no candidates yields a fixed message string and a
warning log entry; in no case is an absent value returned. -/
theorem c3_failure_routing (env : GeminiEnv) (name prompt e : String) :
    (env.initOutcome = .error e → (get_response env name prompt).1 = .error e) ∧
    (env.initOutcome = .ok () → env.listToolsOutcome = .error e →
      (get_response env name prompt).1 = .error e) ∧
    (∀ ts, env.initOutcome = .ok () → env.listToolsOutcome = .ok ts →
      env.sendOutcome = .error e →
      (get_response env name prompt).1 =
        .ok ("I encountered an error while processing your request: " ++ e,
          [⟨"user", MsgContent.text prompt⟩]) ∧
      (LogLevel.error, "Error in Gemini processing: " ++ e) ∈
        (get_response env name prompt).2) ∧
    (∀ ts, env.initOutcome = .ok () → env.listToolsOutcome = .ok ts →
      env.sendOutcome = .ok ⟨[]⟩ →
      (get_response env name prompt).1 =
        .ok ("I couldn\x27t generate a proper response.",
          [⟨"user", MsgContent.text prompt⟩]) ∧
      (LogLevel.warning, "No candidates in Gemini response") ∈
        (get_response env name prompt).2) := by
  refine ⟨?_, ?_, ?_, ?_⟩
  · intro h1
    simp [get_response, h1]
  · intro h1 h2
    simp [get_response, h1, h2]
  · intro ts h1 h2 h3
    simp [get_response, h1, h2, h3]
  · intro ts h1 h2 h3
    constructor
    · simp [get_response, h1, h2, h3, process_gemini_response]
      rfl
    · simp [get_response, h1, h2, h3, process_gemini_response]

/-- C3 witness: the amended routing theorem applied at the two concrete
environments. -/
theorem c3_failure_routing_witness :
    (get_response c3EnvLaunchFail "calendar" "list events").1 =
      .error "failed to spawn" ∧
    (get_response c3EnvNoCandidates "calendar" "list events").1 =
      .ok ("I couldn\x27t generate a proper response.",
        [⟨"user", MsgContent.text "list events"⟩]) :=
  ⟨(c3_failure_routing c3EnvLaunchFail "calendar" "list events"
      "failed to spawn").1 rfl,
   ((c3_failure_routing c3EnvNoCandidates "calendar" "list events" "").2.2.2
      [] rfl rfl rfl).1⟩

/-- C7 counterexample: with a weather tool entry present but carrying no
command, building its launch descriptor raises inside send_agenda and the
run aborts, contradicting the claim that a weather data-source failure
always degrades to a placeholder. -/
theorem c7_weather_failure_aborts :
    send_agenda c7EnvNoCommand =
      .error ("No command specified for MCP \x27weather\x27") := rfl

/-- C7 amended: a missing tool configuration degrades to the placeholder
string and the run completes; a missing or empty final model response
raises the empty-response error; but a failure while building the weather
launch descriptor propagates and aborts the run. -/
theorem c7_failure_asymmetry (env : ScheduleEnv) (t e : String)
    (cfg : MCPConfiguration)
    (hjob : env.jobPresent = true) (hjd : env.jobDataPresent = true)
    (hchat : pyIntFalsy env.chatId = false)
    (hreload : env.reloadOutcome = .ok ()) :
    (env.weatherConfig = none → env.calendarName = none →
      env.finalOutcome = .ok (some t) → t ≠ "" →
      send_agenda env = .ok (some
        (PROMPT_TEMPLATE_fmt "No weather data available"
          "No calendar events scheduled for today", t))) ∧
    (env.weatherConfig = none → env.calendarName = none →
      (env.finalOutcome = .ok none ∨ env.finalOutcome = .ok (some "")) →
      send_agenda env = .error "Empty response from AI") ∧
    (env.weatherConfig = some cfg → get_server_params cfg env.host = .error e →
      send_agenda env = .error e) := by
  refine ⟨?_, ?_, ?_⟩
  · intro h1 h2 h3 h4
    simp [send_agenda, hjob, hjd, hchat, hreload, h1, h2, h3, h4]
  · intro h1 h2 h3
    rcases h3 with h3 | h3 <;>
      simp [send_agenda, hjob, hjd, hchat, hreload, h1, h2, h3]
  · intro h1 h2
    simp [send_agenda, hjob, hjd, hchat, hreload, h1, h2]

/-- C7 witness: the amended theorem applied at the degraded environment. -/
theorem c7_failure_asymmetry_witness :
    send_agenda c7EnvDegraded =
      .ok (some (PROMPT_TEMPLATE_fmt "No weather data available"
        "No calendar events scheduled for today", "briefing")) :=
  (c7_failure_asymmetry c7EnvDegraded "briefing" "" ⟨"w", "t", true, {}, []⟩
      rfl rfl rfl rfl).1 rfl rfl rfl (by decide)

/-- C5: in the degraded run (both tool fetches absent) the file content
produced by update_diary.py contains the fallback strings of that script,
which are the for-this-day variants, and does not contain the
for-today strings that the claim and the test suite expect. -/
theorem c5_fallback_strings_evaluation :
    pyIn ("No calendar events recorded for this day".data)
      (create_diary_entry none none) = true ∧
    pyIn ("No tasks completed on this day".data)
      (create_diary_entry none none) = true ∧
    pyIn ("No calendar events recorded for today".data)
      (create_diary_entry none none) = false ∧
    pyIn ("No tasks completed today".data)
      (create_diary_entry none none) = false := by decide

/-- C6: the scan does not return the tasks whose recorded completion date
equals the target date.  A folder holding exactly the note the exporter
writes for a task completed on 2024-01-15 — a note with a parseable quoted
title and todoist_id, a completed boolean line and a quoted completed_date
line — yields the no-tasks fallback when scanned for 2024-01-15, because
the completed_date regex of the parser expects a quoted completed line that
the exporter never writes. -/
theorem c6_scan_misses_exporter_files :
    (parse_todoist_frontmatter (c6File.getD [])).1 =
      some (("Completed Task").data) ∧
    (parse_todoist_frontmatter (c6File.getD [])).2.1 = some (("123").data) ∧
    pyIn ("completed: true".data) (c6File.getD []) = true ∧
    pyIn (("completed_date: \"2024-01-15T00:00:00\"").data) (c6File.getD []) = true ∧
    scan_todoist_completed_tasks_today [c6File] (2024, 1, 15) =
      ("No tasks completed today").data := by decide
